import Mathlib

/-!
Verification development for the nmos-cpp example node implementation
(src/Development/nmos-cpp-node/node_implementation.cpp).

The development embeds the connection-management callbacks
(make_node_implementation_auto_resolver, make_node_implementation_transportfile_setter),
the startup insertion sequence of node_implementation_thread, and the periodic
temperature mutation, as executable Lean definitions, and proves the spec
claims about them.

Library functions that the example calls but whose sources are not part of
this repository snapshot (nmos::details::resolve_auto, nmos::resolve_rtp_auto,
nmos::make_repeatable_id, nmos::find_resource, the SDP builders) are modelled
from the specification; each such definition carries a doc comment starting
with "Modelled from the spec:".
-/

/-- Leaf values of the transport-parameter JSON objects: strings, numbers and
booleans (the only leaf kinds the example uses). -/
inductive Value where
  | str (s : String)
  | num (n : Int)
  | bool (b : Bool)
deriving DecidableEq

/-- The "auto" sentinel: the JSON string "auto" marking a parameter whose
concrete value is to be filled in at activation time. -/
def auto_sentinel : Value := Value.str "auto"

/-- Modelled from the spec: the library helper nmos::details::resolve_auto
(not part of this repository snapshot).  Per the spec, auto-resolution means
"replacing an unspecified (auto) parameter with a concrete value": a parameter
that is present and holds the auto sentinel is replaced by the supplied value;
an absent parameter or one already holding a concrete value is left unchanged. -/
def details_resolve_auto (x : Option Value) (v : Value) : Option Value :=
  match x with
  | none => none
  | some w => if w = auto_sentinel then some v else some w

/-- One transport-parameter leg: the parameter names used by the RTP and
events-websocket transports in the example, each optionally present.
This embeds one element of the transport_params JSON array. -/
structure Leg where
  source_ip : Option Value := none
  destination_ip : Option Value := none
  source_port : Option Value := none
  destination_port : Option Value := none
  rtp_enabled : Option Value := none
  interface_ip : Option Value := none
  connection_uri : Option Value := none
  connection_authorization : Option Value := none
deriving DecidableEq

def Leg.resolve_source_ip (l : Leg) (v : Value) : Leg :=
  { l with source_ip := details_resolve_auto l.source_ip v }

def Leg.resolve_destination_ip (l : Leg) (v : Value) : Leg :=
  { l with destination_ip := details_resolve_auto l.destination_ip v }

def Leg.resolve_source_port (l : Leg) (v : Value) : Leg :=
  { l with source_port := details_resolve_auto l.source_port v }

def Leg.resolve_destination_port (l : Leg) (v : Value) : Leg :=
  { l with destination_port := details_resolve_auto l.destination_port v }

def Leg.resolve_rtp_enabled (l : Leg) (v : Value) : Leg :=
  { l with rtp_enabled := details_resolve_auto l.rtp_enabled v }

def Leg.resolve_interface_ip (l : Leg) (v : Value) : Leg :=
  { l with interface_ip := details_resolve_auto l.interface_ip v }

def Leg.resolve_connection_uri (l : Leg) (v : Value) : Leg :=
  { l with connection_uri := details_resolve_auto l.connection_uri v }

def Leg.resolve_connection_authorization (l : Leg) (v : Value) : Leg :=
  { l with connection_authorization := details_resolve_auto l.connection_authorization v }

/-- Resource types of the IS-04 model used by the example. -/
inductive NType where
  | node
  | device
  | source
  | flow
  | sender
  | receiver
deriving DecidableEq

/-- Modelled from the spec: the library function nmos::resolve_rtp_auto
(not part of this repository snapshot), acting on one leg.  Per the spec,
"every recognized auto parameter for a known identity must yield a value";
the library resolves the generic RTP parameters (ports, rtp_enabled), while
the vendor-specific addresses (source_ip, destination_ip for senders,
interface_ip for receivers) are deliberately left to the example callback,
exactly as the source file then resolves them. -/
def rtp_auto_leg (ty : NType) (l : Leg) : Leg :=
  match ty with
  | NType.sender =>
      ((l.resolve_source_port (Value.num 5004)).resolve_destination_port
        (Value.num 5004)).resolve_rtp_enabled (Value.bool true)
  | NType.receiver =>
      (l.resolve_destination_port (Value.num 5004)).resolve_rtp_enabled (Value.bool true)
  | _ => l

/-- Modelled from the spec: nmos::resolve_rtp_auto applied to every leg of the
transport_params array. -/
def resolve_rtp_auto (ty : NType) (p : List Leg) : List Leg :=
  p.map (rtp_auto_leg ty)

/-- Indexed access transport_params[i] followed by details_resolve_auto, as in
the source.  The underlying web::json array access grows the array with null
elements up to the index, so absent legs materialize as the empty mapping. -/
def resolve_param_at (g : Leg → Leg) : Nat → List Leg → List Leg
  | 0, [] => [g {}]
  | 0, l :: r => g l :: r
  | n + 1, [] => ({} : Leg) :: resolve_param_at g n []
  | n + 1, l :: r => l :: resolve_param_at g n r

/-- Settings of the example node: the seed for repeatable ids and the
events API port (negative disables the temperature event resources). -/
structure Settings where
  seed_id : String
  events_port : Int
deriving DecidableEq

/-- Modelled from the spec: nmos::make_repeatable_id (not part of this
repository snapshot) derives a stable identifier deterministically from the
seed and the path (a name-based id; the concrete UUID algorithm is out of
scope).  Distinct paths yield distinct ids for a fixed seed. -/
def make_repeatable_id (seed path : String) : String := seed ++ path

/-- Modelled from the spec: nmos::make_events_ws_api_connection_uri (not part
of this repository snapshot) builds the events websocket connection URI from
the device id and settings. -/
def make_events_ws_api_connection_uri (dev : String) : String :=
  "ws-events://" ++ dev

/-- The identifiers captured by the closure returned from
make_node_implementation_auto_resolver. -/
structure ResolverConfig where
  device_id : String
  sender_id : String
  receiver_id : String
  temperature_ws_sender_id : String
  temperature_ws_sender_uri : String
  temperature_ws_receiver_id : String
deriving DecidableEq

/-- The capture list of the auto-resolver callback, built from the settings
exactly as in make_node_implementation_auto_resolver. -/
def make_node_implementation_auto_resolver (s : Settings) : ResolverConfig :=
  { device_id := make_repeatable_id s.seed_id "/x-nmos/node/device/0"
    sender_id := make_repeatable_id s.seed_id "/x-nmos/node/sender/0"
    receiver_id := make_repeatable_id s.seed_id "/x-nmos/node/receiver/0"
    temperature_ws_sender_id := make_repeatable_id s.seed_id "/x-nmos/node/sender/1"
    temperature_ws_sender_uri :=
      make_events_ws_api_connection_uri (make_repeatable_id s.seed_id "/x-nmos/node/device/0")
    temperature_ws_receiver_id := make_repeatable_id s.seed_id "/x-nmos/node/receiver/1" }

/-- The primary RTP sender branch of the auto-resolver: resolve_rtp_auto, then
source_ip and destination_ip of both legs, in source order. -/
def resolve_sender_branch (ty : NType) (p : List Leg) : List Leg :=
  resolve_param_at (fun l => l.resolve_destination_ip (Value.str "239.255.255.1")) 1
    (resolve_param_at (fun l => l.resolve_destination_ip (Value.str "239.255.255.0")) 0
      (resolve_param_at (fun l => l.resolve_source_ip (Value.str "192.168.255.1")) 1
        (resolve_param_at (fun l => l.resolve_source_ip (Value.str "192.168.255.0")) 0
          (resolve_rtp_auto ty p))))

/-- The primary RTP receiver branch of the auto-resolver: resolve_rtp_auto,
then interface_ip of both legs. -/
def resolve_receiver_branch (ty : NType) (p : List Leg) : List Leg :=
  resolve_param_at (fun l => l.resolve_interface_ip (Value.str "192.168.255.3")) 1
    (resolve_param_at (fun l => l.resolve_interface_ip (Value.str "192.168.255.2")) 0
      (resolve_rtp_auto ty p))

/-- The websocket temperature sender branch: connection_uri and
connection_authorization of leg 0. -/
def resolve_ws_sender_branch (c : ResolverConfig) (p : List Leg) : List Leg :=
  resolve_param_at (fun l => l.resolve_connection_authorization (Value.bool false)) 0
    (resolve_param_at (fun l => l.resolve_connection_uri (Value.str c.temperature_ws_sender_uri)) 0 p)

/-- The websocket temperature receiver branch: connection_authorization of
leg 0 only. -/
def resolve_ws_receiver_branch (p : List Leg) : List Leg :=
  resolve_param_at (fun l => l.resolve_connection_authorization (Value.bool false)) 0 p

/-- The auto-resolver callback returned by make_node_implementation_auto_resolver:
dispatch on the connection resource id, with unrecognized ids left untouched.
The connection resource type is forwarded to resolve_rtp_auto as in the source. -/
def resolve_auto (c : ResolverConfig) (connection_id : String) (connection_type : NType)
    (transport_params : List Leg) : List Leg :=
  if c.sender_id = connection_id then
    resolve_sender_branch connection_type transport_params
  else if c.receiver_id = connection_id then
    resolve_receiver_branch connection_type transport_params
  else if c.temperature_ws_sender_id = connection_id then
    resolve_ws_sender_branch c transport_params
  else if c.temperature_ws_receiver_id = connection_id then
    resolve_ws_receiver_branch transport_params
  else
    transport_params

/-- Decides whether an optional parameter value is the auto sentinel. -/
def is_auto (x : Option Value) : Bool := decide (x = some auto_sentinel)

/-- Decides whether any parameter of a leg holds the auto sentinel. -/
def Leg.has_auto (l : Leg) : Bool :=
  is_auto l.source_ip || is_auto l.destination_ip || is_auto l.source_port ||
  is_auto l.destination_port || is_auto l.rtp_enabled || is_auto l.interface_ip ||
  is_auto l.connection_uri || is_auto l.connection_authorization

/-- Decides whether any leg of a parameter set holds the auto sentinel. -/
def has_auto_params (p : List Leg) : Bool := p.any Leg.has_auto

/-- Decides whether an id is one of the four identities recognized by the
auto-resolver. -/
def recognized_id (c : ResolverConfig) (i : String) : Bool :=
  decide (c.sender_id = i) || decide (c.receiver_id = i) ||
  decide (c.temperature_ws_sender_id = i) || decide (c.temperature_ws_receiver_id = i)

/-- Concrete settings used for closed witnesses. -/
def example_settings : Settings := { seed_id := "seed", events_port := 3216 }

/-- The resolver capture list for the example settings. -/
def example_resolver : ResolverConfig :=
  make_node_implementation_auto_resolver example_settings

/-- A resource of the model: id, type and payload, with the active
transport_params of connection resources lifted out of the JSON payload into
a dedicated field (the rest of the payload stays opaque in `data`). -/
structure Resource where
  id : String
  rtype : NType
  data : Value
  transport_params : List Leg := []
deriving DecidableEq

/-- Modelled from the spec: nmos::find_resource (not part of this repository
snapshot) looks a resource up by its (id, type) pair, returning nothing when
absent. -/
def find_resource (rs : List Resource) (i : String) (ty : NType) : Option Resource :=
  rs.find? (fun r => decide (r.id = i) && decide (r.rtype = ty))

/-- The identifiers captured by the closure returned from
make_node_implementation_transportfile_setter. -/
structure SetterConfig where
  source_id : String
  flow_id : String
  sender_id : String
deriving DecidableEq

/-- The capture list of the transportfile setter callback, built from the
settings exactly as in make_node_implementation_transportfile_setter. -/
def make_node_implementation_transportfile_setter (s : Settings) : SetterConfig :=
  { source_id := make_repeatable_id s.seed_id "/x-nmos/node/source/0"
    flow_id := make_repeatable_id s.seed_id "/x-nmos/node/flow/0"
    sender_id := make_repeatable_id s.seed_id "/x-nmos/node/sender/0" }

/-- Modelled from the spec: the SDP parameter record produced by
nmos::make_sdp_parameters (not part of this repository snapshot) — per the
spec a pure record of the source, flow and sender payloads and the media
stream ids, with no hidden state. -/
structure SdpParameters where
  source : Value
  flow : Value
  sender : Value
  media_stream_ids : List String
deriving DecidableEq

/-- Modelled from the spec: nmos::make_sdp_parameters as a pure constructor of
the record above. -/
def make_sdp_parameters (source flow sender : Value) (ids : List String) : SdpParameters :=
  { source := source, flow := flow, sender := sender, media_stream_ids := ids }

/-- Deterministic encoding of a leaf value, used by the modelled serializer. -/
def encode_value : Value → String
  | Value.str s => "s:" ++ s
  | Value.num n => "n:" ++ toString n
  | Value.bool b => if b then "b:1" else "b:0"

/-- Deterministic encoding of an optional parameter value. -/
def encode_opt : Option Value → String
  | none => "_"
  | some v => encode_value v

/-- Deterministic encoding of one transport-parameter leg. -/
def encode_leg (l : Leg) : String :=
  encode_opt l.source_ip ++ "," ++ encode_opt l.destination_ip ++ "," ++
  encode_opt l.source_port ++ "," ++ encode_opt l.destination_port ++ "," ++
  encode_opt l.rtp_enabled ++ "," ++ encode_opt l.interface_ip ++ "," ++
  encode_opt l.connection_uri ++ "," ++ encode_opt l.connection_authorization

/-- Modelled from the spec: nmos::make_session_description composed with
sdp::make_session_description (neither part of this repository snapshot) —
per the spec the session description is derived purely from
(source, flow, sender, activeParams), same inputs giving the same bytes. -/
def make_session_description (sp : SdpParameters) (tp : List Leg) : String :=
  "v=0|" ++ encode_value sp.source ++ "|" ++ encode_value sp.flow ++ "|" ++
  encode_value sp.sender ++ "|" ++ String.intercalate "&" sp.media_stream_ids ++
  "|" ++ String.intercalate "&" (tp.map encode_leg)

/-- Modelled from the spec: nmos::make_connection_rtp_sender_transportfile
wraps the SDP text as the endpoint_transportfile value. -/
def make_connection_rtp_sender_transportfile (sdp : String) : Value := Value.str sdp

/-- The failure raised by the transportfile setter when the matching IS-04
source or flow is not found (a std::logic_error in the source). -/
inductive SetterError where
  | resource_not_found
deriving DecidableEq

/-- The transportfile setter callback returned by
make_node_implementation_transportfile_setter.  The first component of the
result is the node-resource store, which the callback only reads, and the
second is either the new endpoint_transportfile value or the lookup failure.
For a connection sender other than the primary one the endpoint value is
returned unchanged. -/
def set_transportfile (c : SetterConfig) (node_resources : List Resource)
    (sender connection_sender : Resource) (endpoint_transportfile : Value) :
    List Resource × Except SetterError Value :=
  if connection_sender.id = c.sender_id then
    match find_resource node_resources c.source_id NType.source,
        find_resource node_resources c.flow_id NType.flow with
    | some source, some flow =>
        (node_resources,
          Except.ok (make_connection_rtp_sender_transportfile
            (make_session_description
              (make_sdp_parameters source.data flow.data sender.data ["PRIMARY", "SECONDARY"])
              connection_sender.transport_params)))
    | _, _ => (node_resources, Except.error SetterError.resource_not_found)
  else
    (node_resources, Except.ok endpoint_transportfile)

/-- The periodic temperature mutation, at scale 10: the value written by the
background task given the tai timestamp in seconds, 175.0 + std::abs(seconds
% 100 - 50) in the source. -/
def temperature_value (t : Int) : Int := 175 + |t % 100 - 50|

/-- The three independent resource namespaces of the node model. -/
inductive NS where
  | nodeRes
  | connectionRes
  | eventsRes
deriving DecidableEq

/-- The mutable model state shared by the setup thread: the three resource
namespaces, the monotonic shutdown flag, and a counter of change
notifications (model.notify calls). -/
structure Model where
  node_resources : List Resource := []
  connection_resources : List Resource := []
  events_resources : List Resource := []
  shutdown : Bool := false
  notifications : Nat := 0
deriving DecidableEq

def Model.get_ns (m : Model) : NS → List Resource
  | NS.nodeRes => m.node_resources
  | NS.connectionRes => m.connection_resources
  | NS.eventsRes => m.events_resources

def Model.set_ns (m : Model) (ns : NS) (rs : List Resource) : Model :=
  match ns with
  | NS.nodeRes => { m with node_resources := rs }
  | NS.connectionRes => { m with connection_resources := rs }
  | NS.eventsRes => { m with events_resources := rs }

/-- Signal the change-notification condition (model.notify in the source). -/
def Model.notify (m : Model) : Model := { m with notifications := m.notifications + 1 }

/-- Modelled from the spec: insert_resource (not part of this repository
snapshot) — fails and leaves the namespace unchanged when the (id, type) pair
already exists, and appends the resource otherwise. -/
def insert_resource (rs : List Resource) (r : Resource) : List Resource × Bool :=
  if rs.any (fun x => decide (x.id = r.id) && decide (x.rtype = r.rtype)) then (rs, false)
  else (rs ++ [r], true)

/-- The insert_resource_after helper of node_implementation_thread: a timed
wait that returns false without inserting and without notifying when shutdown
is observed, and otherwise inserts into the given namespace, notifies the
node behaviour thread (whether or not the insert succeeded), and returns the
insert result. -/
def insert_resource_after (m : Model) (ns : NS) (r : Resource) : Model × Bool :=
  if m.shutdown then (m, false)
  else
    ((m.set_ns ns (insert_resource (m.get_ns ns) r).1).notify,
      (insert_resource (m.get_ns ns) r).2)

/-- Run a sequence of setup insertions, stopping at (and returning the model
state of) the first insert_resource_after that returns false — each call in
the source sits under `if (!insert_resource_after(...)) return;`. -/
def run_setup : Model → List (NS × Resource) → Model
  | m, [] => m
  | m, s :: rest =>
    if (insert_resource_after m s.1 s.2).2 then
      run_setup (insert_resource_after m s.1 s.2).1 rest
    else
      (insert_resource_after m s.1 s.2).1

/-- Decides whether every insertion of a sequence succeeds from a given
starting state. -/
def all_ok : Model → List (NS × Resource) → Bool
  | _, [] => true
  | m, s :: rest =>
    (insert_resource_after m s.1 s.2).2 && all_ok (insert_resource_after m s.1 s.2).1 rest

/-- Modelled from the spec: the resource constructors (nmos::make_node,
make_device, make_video_source, ...) are out of scope; only the (id, type)
identity matters to the store contract, so the payload is the id itself. -/
def mk_resource (i : String) (ty : NType) : Resource :=
  { id := i, rtype := ty, data := Value.str i }

def node_id (s : Settings) : String := make_repeatable_id s.seed_id "/x-nmos/node/self"

def device_id (s : Settings) : String := make_repeatable_id s.seed_id "/x-nmos/node/device/0"

def source_id (s : Settings) : String := make_repeatable_id s.seed_id "/x-nmos/node/source/0"

def flow_id (s : Settings) : String := make_repeatable_id s.seed_id "/x-nmos/node/flow/0"

def sender_id (s : Settings) : String := make_repeatable_id s.seed_id "/x-nmos/node/sender/0"

def receiver_id (s : Settings) : String := make_repeatable_id s.seed_id "/x-nmos/node/receiver/0"

def temperature_source_id (s : Settings) : String :=
  make_repeatable_id s.seed_id "/x-nmos/node/source/1"

def temperature_flow_id (s : Settings) : String :=
  make_repeatable_id s.seed_id "/x-nmos/node/flow/1"

def temperature_ws_sender_id (s : Settings) : String :=
  make_repeatable_id s.seed_id "/x-nmos/node/sender/1"

def temperature_ws_receiver_id (s : Settings) : String :=
  make_repeatable_id s.seed_id "/x-nmos/node/receiver/1"

/-- The startup insertion sequence of node_implementation_thread, in source
order: node, device, source, flow, sender, connection sender, receiver,
connection receiver, then (when the events port is enabled) the temperature
source, flow, websocket sender, its connection resource and the events
source, and finally the temperature websocket receiver and its connection
resource. -/
def setup_steps (s : Settings) : List (NS × Resource) :=
  [ (NS.nodeRes, mk_resource (node_id s) NType.node),
    (NS.nodeRes, mk_resource (device_id s) NType.device),
    (NS.nodeRes, mk_resource (source_id s) NType.source),
    (NS.nodeRes, mk_resource (flow_id s) NType.flow),
    (NS.nodeRes, mk_resource (sender_id s) NType.sender),
    (NS.connectionRes, mk_resource (sender_id s) NType.sender),
    (NS.nodeRes, mk_resource (receiver_id s) NType.receiver),
    (NS.connectionRes, mk_resource (receiver_id s) NType.receiver) ]
  ++ (if 0 ≤ s.events_port then
      [ (NS.nodeRes, mk_resource (temperature_source_id s) NType.source),
        (NS.nodeRes, mk_resource (temperature_flow_id s) NType.flow),
        (NS.nodeRes, mk_resource (temperature_ws_sender_id s) NType.sender),
        (NS.connectionRes, mk_resource (temperature_ws_sender_id s) NType.sender),
        (NS.eventsRes, mk_resource (temperature_source_id s) NType.source) ]
      else [])
  ++ [ (NS.nodeRes, mk_resource (temperature_ws_receiver_id s) NType.receiver),
       (NS.connectionRes, mk_resource (temperature_ws_receiver_id s) NType.receiver) ]

/-- A leg whose every RTP sender parameter is the auto sentinel. -/
def all_auto_rtp_leg : Leg :=
  { source_ip := some auto_sentinel, destination_ip := some auto_sentinel,
    source_port := some auto_sentinel, destination_port := some auto_sentinel,
    rtp_enabled := some auto_sentinel }

/-- A websocket receiver parameter set whose connection_uri and
connection_authorization are both the auto sentinel, as produced by
make_connection_events_websocket_receiver before activation. -/
def ws_receiver_auto_params : List Leg :=
  [{ connection_uri := some auto_sentinel, connection_authorization := some auto_sentinel }]

/-- The setter capture list for the example settings. -/
def example_setter : SetterConfig :=
  make_node_implementation_transportfile_setter example_settings

/-- The primary source and flow resources of the example node store. -/
def example_node_store : List Resource :=
  [mk_resource (source_id example_settings) NType.source,
   mk_resource (flow_id example_settings) NType.flow]

/-- The primary sender resource of the example. -/
def example_sender_resource : Resource := mk_resource (sender_id example_settings) NType.sender

/-- The primary connection sender with two fully concrete (empty) active legs. -/
def example_connection_sender : Resource :=
  { id := sender_id example_settings, rtype := NType.sender,
    data := Value.str "connection", transport_params := [{}, {}] }

/-- The description the example inputs produce, built by the same pipeline
the setter uses. -/
def example_transportfile : Value :=
  make_connection_rtp_sender_transportfile
    (make_session_description
      (make_sdp_parameters (Value.str (source_id example_settings))
        (Value.str (flow_id example_settings)) example_sender_resource.data
        ["PRIMARY", "SECONDARY"])
      example_connection_sender.transport_params)

/-- The websocket temperature connection sender of the example. -/
def example_ws_connection_sender : Resource :=
  mk_resource (temperature_ws_sender_id example_settings) NType.sender

/-! Helper lemmas about the resolution primitive. -/

theorem details_resolve_auto_idem (x : Option Value) (v : Value) :
    details_resolve_auto (details_resolve_auto x v) v = details_resolve_auto x v := by
  cases x with
  | none => rfl
  | some w =>
    simp only [details_resolve_auto]
    by_cases h : w = auto_sentinel
    · simp [h]
    · simp [h]

theorem is_auto_details_resolve_auto (x : Option Value) (v : Value)
    (hv : v ≠ auto_sentinel) : is_auto (details_resolve_auto x v) = false := by
  cases x with
  | none => rfl
  | some w =>
    simp only [details_resolve_auto]
    by_cases h : w = auto_sentinel
    · simp [h, is_auto, hv]
    · simp [h, is_auto]

/-! Per-leg idempotence of the branch bodies. -/

theorem rtp_auto_leg_idem (ty : NType) (l : Leg) :
    rtp_auto_leg ty (rtp_auto_leg ty l) = rtp_auto_leg ty l := by
  cases ty <;>
    (cases l
     simp [rtp_auto_leg, Leg.resolve_source_port, Leg.resolve_destination_port,
       Leg.resolve_rtp_enabled, details_resolve_auto_idem])

theorem map_rtp_auto_leg_idem (ty : NType) (r : List Leg) :
    List.map (rtp_auto_leg ty) (List.map (rtp_auto_leg ty) r) = List.map (rtp_auto_leg ty) r := by
  induction r with
  | nil => rfl
  | cons h t ih => simp [rtp_auto_leg_idem, ih]

theorem sender_leg_idem (ty : NType) (a c : Value) (l : Leg) :
    ((rtp_auto_leg ty (((rtp_auto_leg ty l).resolve_source_ip a).resolve_destination_ip
        c)).resolve_source_ip a).resolve_destination_ip c =
      ((rtp_auto_leg ty l).resolve_source_ip a).resolve_destination_ip c := by
  cases ty <;>
    (cases l
     simp [rtp_auto_leg, Leg.resolve_source_ip, Leg.resolve_destination_ip,
       Leg.resolve_source_port, Leg.resolve_destination_port, Leg.resolve_rtp_enabled,
       details_resolve_auto_idem])

theorem receiver_leg_idem (ty : NType) (a : Value) (l : Leg) :
    (rtp_auto_leg ty ((rtp_auto_leg ty l).resolve_interface_ip a)).resolve_interface_ip a =
      (rtp_auto_leg ty l).resolve_interface_ip a := by
  cases ty <;>
    (cases l
     simp [rtp_auto_leg, Leg.resolve_interface_ip, Leg.resolve_source_port,
       Leg.resolve_destination_port, Leg.resolve_rtp_enabled, details_resolve_auto_idem])

theorem ws_sender_leg_idem (u : Value) (l : Leg) :
    (((l.resolve_connection_uri u).resolve_connection_authorization
        (Value.bool false)).resolve_connection_uri u).resolve_connection_authorization
        (Value.bool false) =
      (l.resolve_connection_uri u).resolve_connection_authorization (Value.bool false) := by
  cases l
  simp [Leg.resolve_connection_uri, Leg.resolve_connection_authorization,
    details_resolve_auto_idem]

theorem ws_receiver_leg_idem (l : Leg) :
    (l.resolve_connection_authorization (Value.bool false)).resolve_connection_authorization
        (Value.bool false) =
      l.resolve_connection_authorization (Value.bool false) := by
  cases l
  simp [Leg.resolve_connection_authorization, details_resolve_auto_idem]

/-! Closed forms of the four branches by list shape. -/

theorem resolve_sender_branch_nil (ty : NType) :
    resolve_sender_branch ty [] = [{}, {}] := by
  rfl

theorem resolve_sender_branch_single (ty : NType) (l0 : Leg) :
    resolve_sender_branch ty [l0] =
      [((rtp_auto_leg ty l0).resolve_source_ip
          (Value.str "192.168.255.0")).resolve_destination_ip (Value.str "239.255.255.0"),
       {}] := by
  rfl

theorem resolve_sender_branch_cons (ty : NType) (l0 l1 : Leg) (r : List Leg) :
    resolve_sender_branch ty (l0 :: l1 :: r) =
      ((rtp_auto_leg ty l0).resolve_source_ip
          (Value.str "192.168.255.0")).resolve_destination_ip (Value.str "239.255.255.0") ::
      ((rtp_auto_leg ty l1).resolve_source_ip
          (Value.str "192.168.255.1")).resolve_destination_ip (Value.str "239.255.255.1") ::
      List.map (rtp_auto_leg ty) r := by
  rfl

theorem resolve_receiver_branch_nil (ty : NType) :
    resolve_receiver_branch ty [] = [{}, {}] := by
  rfl

theorem resolve_receiver_branch_single (ty : NType) (l0 : Leg) :
    resolve_receiver_branch ty [l0] =
      [(rtp_auto_leg ty l0).resolve_interface_ip (Value.str "192.168.255.2"), {}] := by
  rfl

theorem resolve_receiver_branch_cons (ty : NType) (l0 l1 : Leg) (r : List Leg) :
    resolve_receiver_branch ty (l0 :: l1 :: r) =
      (rtp_auto_leg ty l0).resolve_interface_ip (Value.str "192.168.255.2") ::
      (rtp_auto_leg ty l1).resolve_interface_ip (Value.str "192.168.255.3") ::
      List.map (rtp_auto_leg ty) r := by
  rfl

theorem resolve_ws_sender_branch_nil (c : ResolverConfig) :
    resolve_ws_sender_branch c [] = [{}] := by
  rfl

theorem resolve_ws_sender_branch_cons (c : ResolverConfig) (l0 : Leg) (r : List Leg) :
    resolve_ws_sender_branch c (l0 :: r) =
      (l0.resolve_connection_uri
        (Value.str c.temperature_ws_sender_uri)).resolve_connection_authorization
        (Value.bool false) :: r := by
  rfl

theorem resolve_ws_receiver_branch_nil :
    resolve_ws_receiver_branch [] = [{}] := by
  rfl

theorem resolve_ws_receiver_branch_cons (l0 : Leg) (r : List Leg) :
    resolve_ws_receiver_branch (l0 :: r) =
      l0.resolve_connection_authorization (Value.bool false) :: r := by
  rfl

/-! Absorption of the empty leg under the resolution operations. -/

theorem rtp_auto_leg_empty (ty : NType) : rtp_auto_leg ty {} = ({} : Leg) := by
  cases ty <;> rfl

theorem resolve_source_ip_empty (v : Value) : ({} : Leg).resolve_source_ip v = {} := rfl

theorem resolve_destination_ip_empty (v : Value) :
    ({} : Leg).resolve_destination_ip v = {} := rfl

theorem resolve_interface_ip_empty (v : Value) : ({} : Leg).resolve_interface_ip v = {} := rfl

/-! Idempotence of each branch. -/

theorem resolve_sender_branch_idem (ty : NType) (p : List Leg) :
    resolve_sender_branch ty (resolve_sender_branch ty p) = resolve_sender_branch ty p := by
  match p with
  | [] =>
    rw [resolve_sender_branch_nil, resolve_sender_branch_cons]
    simp [rtp_auto_leg_empty, resolve_source_ip_empty, resolve_destination_ip_empty]
  | [l0] =>
    rw [resolve_sender_branch_single, resolve_sender_branch_cons]
    rw [sender_leg_idem]
    simp [rtp_auto_leg_empty, resolve_source_ip_empty, resolve_destination_ip_empty]
  | l0 :: l1 :: r =>
    rw [resolve_sender_branch_cons, resolve_sender_branch_cons]
    rw [sender_leg_idem, sender_leg_idem, map_rtp_auto_leg_idem]

theorem resolve_receiver_branch_idem (ty : NType) (p : List Leg) :
    resolve_receiver_branch ty (resolve_receiver_branch ty p) = resolve_receiver_branch ty p := by
  match p with
  | [] =>
    rw [resolve_receiver_branch_nil, resolve_receiver_branch_cons]
    simp [rtp_auto_leg_empty, resolve_interface_ip_empty]
  | [l0] =>
    rw [resolve_receiver_branch_single, resolve_receiver_branch_cons]
    rw [receiver_leg_idem]
    simp [rtp_auto_leg_empty, resolve_interface_ip_empty]
  | l0 :: l1 :: r =>
    rw [resolve_receiver_branch_cons, resolve_receiver_branch_cons]
    rw [receiver_leg_idem, receiver_leg_idem, map_rtp_auto_leg_idem]

theorem resolve_ws_sender_branch_idem (c : ResolverConfig) (p : List Leg) :
    resolve_ws_sender_branch c (resolve_ws_sender_branch c p) = resolve_ws_sender_branch c p := by
  match p with
  | [] =>
    rw [resolve_ws_sender_branch_nil]
    rfl
  | l0 :: r =>
    rw [resolve_ws_sender_branch_cons, resolve_ws_sender_branch_cons]
    rw [ws_sender_leg_idem]

theorem resolve_ws_receiver_branch_idem (p : List Leg) :
    resolve_ws_receiver_branch (resolve_ws_receiver_branch p) = resolve_ws_receiver_branch p := by
  match p with
  | [] =>
    rw [resolve_ws_receiver_branch_nil]
    rfl
  | l0 :: r =>
    rw [resolve_ws_receiver_branch_cons, resolve_ws_receiver_branch_cons]
    rw [ws_receiver_leg_idem]

/-- C5: the auto-resolver is idempotent — for every identity (recognized or
not), every connection resource type and every transport parameter set,
resolving the result of a resolve is a no-op, so resolving twice equals
resolving once. -/
theorem resolve_auto_idempotent (c : ResolverConfig) (i : String) (ty : NType)
    (p : List Leg) :
    resolve_auto c i ty (resolve_auto c i ty p) = resolve_auto c i ty p := by
  unfold resolve_auto
  by_cases h1 : c.sender_id = i
  · simp [h1, resolve_sender_branch_idem]
  · simp only [h1, if_false, ite_false]
    by_cases h2 : c.receiver_id = i
    · simp [h2, resolve_receiver_branch_idem]
    · simp only [h2, if_false, ite_false]
      by_cases h3 : c.temperature_ws_sender_id = i
      · simp [h3, resolve_ws_sender_branch_idem]
      · simp only [h3, if_false, ite_false]
        by_cases h4 : c.temperature_ws_receiver_id = i
        · simp [h4, resolve_ws_receiver_branch_idem]
        · simp [h4]

/-- C6: for a connection resource whose id is none of the four recognized
identities, the auto-resolver leaves the transport parameter set completely
unchanged (and, being a total function, raises no error). -/
theorem resolve_auto_unknown_id_noop (c : ResolverConfig) (i : String) (ty : NType)
    (p : List Leg) (h : recognized_id c i = false) :
    resolve_auto c i ty p = p := by
  unfold recognized_id at h
  simp only [Bool.or_eq_false_iff, decide_eq_false_iff_not] at h
  unfold resolve_auto
  simp [h.1.1.1, h.1.1.2, h.1.2, h.2]

/-- Witness for C6 at a concrete unrecognized id and parameter set. -/
theorem resolve_auto_unknown_id_noop_witness :
    recognized_id example_resolver "mystery-id" = false ∧
    resolve_auto example_resolver "mystery-id" NType.sender
        [{ source_ip := some auto_sentinel }] = [{ source_ip := some auto_sentinel }] :=
  ⟨by decide,
   resolve_auto_unknown_id_noop example_resolver "mystery-id" NType.sender
     [{ source_ip := some auto_sentinel }] (by decide)⟩

theorem is_auto_none : is_auto none = false := rfl

theorem is_auto_resolved_num (x : Option Value) (n : Int) :
    is_auto (details_resolve_auto x (Value.num n)) = false := by
  apply is_auto_details_resolve_auto
  simp [auto_sentinel]

theorem is_auto_resolved_bool (x : Option Value) (b : Bool) :
    is_auto (details_resolve_auto x (Value.bool b)) = false := by
  apply is_auto_details_resolve_auto
  simp [auto_sentinel]

theorem is_auto_resolved_str (x : Option Value) (s : String) (h : ¬s = "auto") :
    is_auto (details_resolve_auto x (Value.str s)) = false := by
  apply is_auto_details_resolve_auto
  simp [auto_sentinel, h]

/-- C2: for the primary sender identity, resolving a two-leg parameter set
that carries only RTP sender parameters (the websocket and receiver-specific
parameters being absent) yields a parameter set in which no value is the auto
sentinel, whatever the initial values — in particular when source_ip,
destination_ip and the remaining RTP parameters all start as "auto". -/
theorem resolve_auto_sender_no_auto (c : ResolverConfig) (l0 l1 : Leg)
    (h0 : l0.interface_ip = none ∧ l0.connection_uri = none ∧
      l0.connection_authorization = none)
    (h1 : l1.interface_ip = none ∧ l1.connection_uri = none ∧
      l1.connection_authorization = none) :
    has_auto_params (resolve_auto c c.sender_id NType.sender [l0, l1]) = false := by
  obtain ⟨hi0, hu0, ha0⟩ := h0
  obtain ⟨hi1, hu1, ha1⟩ := h1
  cases l0
  cases l1
  simp only [] at hi0 hu0 ha0 hi1 hu1 ha1
  subst hi0 hu0 ha0 hi1 hu1 ha1
  unfold resolve_auto
  rw [if_pos rfl]
  rw [resolve_sender_branch_cons]
  simp [has_auto_params, Leg.has_auto, rtp_auto_leg, Leg.resolve_source_ip,
    Leg.resolve_destination_ip, Leg.resolve_source_port, Leg.resolve_destination_port,
    Leg.resolve_rtp_enabled, is_auto_none, is_auto_resolved_num, is_auto_resolved_bool,
    is_auto_resolved_str]

/-- Witness for C2 at the all-auto two-leg RTP parameter set. -/
theorem resolve_auto_sender_no_auto_witness :
    (all_auto_rtp_leg.interface_ip = none ∧ all_auto_rtp_leg.connection_uri = none ∧
      all_auto_rtp_leg.connection_authorization = none) ∧
    has_auto_params (resolve_auto example_resolver example_resolver.sender_id NType.sender
      [all_auto_rtp_leg, all_auto_rtp_leg]) = false :=
  ⟨⟨rfl, rfl, rfl⟩,
   resolve_auto_sender_no_auto example_resolver all_auto_rtp_leg all_auto_rtp_leg
     ⟨rfl, rfl, rfl⟩ ⟨rfl, rfl, rfl⟩⟩

/-- C1 counterexample: for the recognized websocket temperature receiver
identity, a parameter set whose connection_uri is "auto" still holds the auto
sentinel after resolve returns — and the resolver, a total function with no
error result, reports nothing: the unresolved marker is silently passed
through, contradicting the claim that it must surface as an error. -/
theorem resolve_auto_leaves_auto_unreported :
    recognized_id example_resolver example_resolver.temperature_ws_receiver_id = true ∧
    has_auto_params (resolve_auto example_resolver
      example_resolver.temperature_ws_receiver_id NType.receiver
      ws_receiver_auto_params) = true := by
  decide

/-- C1 (amended): the resolve operation never fails — for the websocket
temperature receiver identity it rewrites only connection_authorization of
leg 0, and every other parameter, connection_uri included, is passed through
unchanged even when it still holds the auto sentinel. -/
theorem ws_receiver_resolve_silent (ty : NType) (l : Leg) (r : List Leg) :
    resolve_auto example_resolver example_resolver.temperature_ws_receiver_id ty (l :: r) =
      { l with connection_authorization :=
          details_resolve_auto l.connection_authorization (Value.bool false) } :: r := rfl

theorem set_transportfile_missing_aux (c : SetterConfig) (rs : List Resource)
    (sender conn : Resource) (v : Value)
    (hid : conn.id = c.sender_id)
    (h : find_resource rs c.source_id NType.source = none ∨
      find_resource rs c.flow_id NType.flow = none) :
    set_transportfile c rs sender conn v =
      (rs, Except.error SetterError.resource_not_found) := by
  unfold set_transportfile
  rw [if_pos hid]
  rcases h with h | h
  · rw [h]
  · cases hs : find_resource rs c.source_id NType.source with
    | none => rfl
    | some src => rw [h]

/-- C3: when the connection sender is the primary one and the matching IS-04
source or flow is absent from the node-resource namespace, the transportfile
setter fails with the lookup error instead of producing a description, and
the store component of its result is the store it was given, unchanged. -/
theorem set_transportfile_missing_fails (c : SetterConfig) (rs : List Resource)
    (sender conn : Resource) (v : Value)
    (hid : conn.id = c.sender_id)
    (h : find_resource rs c.source_id NType.source = none ∨
      find_resource rs c.flow_id NType.flow = none) :
    set_transportfile c rs sender conn v =
      (rs, Except.error SetterError.resource_not_found) :=
  set_transportfile_missing_aux c rs sender conn v hid h

/-- Witness for C3 on the empty node store. -/
theorem set_transportfile_missing_fails_witness :
    (example_connection_sender.id = example_setter.sender_id) ∧
    (find_resource [] example_setter.source_id NType.source = none ∨
      find_resource [] example_setter.flow_id NType.flow = none) ∧
    set_transportfile example_setter [] example_sender_resource example_connection_sender
      (Value.str "") = ([], Except.error SetterError.resource_not_found) :=
  ⟨rfl, Or.inl rfl,
   set_transportfile_missing_fails example_setter [] example_sender_resource
     example_connection_sender (Value.str "") rfl (Or.inl rfl)⟩

/-- C4: the transport-description build is deterministic with no hidden
state — if an invocation of the setter succeeds with store rs1 and
description e1, invoking it again on that store (the endpoint field now
holding e1) returns the byte-identical description e1 and the same store. -/
theorem set_transportfile_found (c : SetterConfig) (rs : List Resource)
    (sender conn : Resource) (v : Value) (src flw : Resource)
    (hid : conn.id = c.sender_id)
    (hs : find_resource rs c.source_id NType.source = some src)
    (hf : find_resource rs c.flow_id NType.flow = some flw) :
    set_transportfile c rs sender conn v =
      (rs, Except.ok (make_connection_rtp_sender_transportfile
        (make_session_description
          (make_sdp_parameters src.data flw.data sender.data ["PRIMARY", "SECONDARY"])
          conn.transport_params))) := by
  unfold set_transportfile
  rw [if_pos hid, hs, hf]

theorem set_transportfile_deterministic (c : SetterConfig) (rs : List Resource)
    (sender conn : Resource) (v : Value) (rs1 : List Resource) (e1 : Value)
    (h : set_transportfile c rs sender conn v = (rs1, Except.ok e1)) :
    set_transportfile c rs sender conn e1 = (rs1, Except.ok e1) := by
  by_cases hid : conn.id = c.sender_id
  · cases hs : find_resource rs c.source_id NType.source with
    | none =>
      have hcontra := (set_transportfile_missing_aux c rs sender conn v hid
        (Or.inl hs)).symm.trans h
      simp at hcontra
    | some src =>
      cases hf : find_resource rs c.flow_id NType.flow with
      | none =>
        have hcontra := (set_transportfile_missing_aux c rs sender conn v hid
          (Or.inr hf)).symm.trans h
        simp at hcontra
      | some flw =>
        have h2 := (set_transportfile_found c rs sender conn v src flw hid hs hf).symm.trans h
        rw [set_transportfile_found c rs sender conn e1 src flw hid hs hf]
        exact h2
  · unfold set_transportfile at h ⊢
    rw [if_neg hid] at h ⊢
    injection h with hA hB
    subst hA
    injection hB with hC
    subst hC
    rfl

/-- Witness for C4: a successful first build followed by an identical second
build on the same inputs. -/
theorem set_transportfile_deterministic_witness :
    set_transportfile example_setter example_node_store example_sender_resource
      example_connection_sender example_transportfile =
      (example_node_store, Except.ok example_transportfile) :=
  set_transportfile_deterministic example_setter example_node_store example_sender_resource
    example_connection_sender (Value.str "") example_node_store example_transportfile rfl

/-- C10: for a connection sender other than the primary RTP sender, the
setter neither touches the endpoint_transportfile output (it is returned
unchanged) nor the node-resource store, and no error is raised. -/
theorem set_transportfile_frame (c : SetterConfig) (rs : List Resource)
    (sender conn : Resource) (v : Value) (h : ¬conn.id = c.sender_id) :
    set_transportfile c rs sender conn v = (rs, Except.ok v) := by
  unfold set_transportfile
  rw [if_neg h]

/-- Witness for C10 at the websocket temperature sender. -/
theorem set_transportfile_frame_witness :
    (¬example_ws_connection_sender.id = example_setter.sender_id) ∧
    set_transportfile example_setter example_node_store example_sender_resource
      example_ws_connection_sender (Value.str "tf") =
      (example_node_store, Except.ok (Value.str "tf")) :=
  ⟨by decide,
   set_transportfile_frame example_setter example_node_store example_sender_resource
     example_ws_connection_sender (Value.str "tf") (by decide)⟩

/-- C7: the periodic mutation value is a pure function of the timestamp,
bounded by [175, 225] at scale 10 for every non-negative epoch-seconds input,
and the input 150 yields 175. -/
theorem temperature_value_bounds :
    (∀ t : Int, 0 ≤ t → 175 ≤ temperature_value t ∧ temperature_value t ≤ 225) ∧
    temperature_value 150 = 175 := by
  constructor
  · intro t ht
    unfold temperature_value
    have h1 : 0 ≤ t % 100 := Int.emod_nonneg t (by norm_num)
    have h2 : t % 100 < 100 := Int.emod_lt_of_pos t (by norm_num)
    rcases abs_cases (t % 100 - 50) with ⟨he, hc⟩ | ⟨he, hc⟩ <;> rw [he] <;> omega
  · decide

/-- Witness for C7 at timestamp 150. -/
theorem temperature_value_bounds_witness :
    (0 : Int) ≤ 150 ∧ (175 ≤ temperature_value 150 ∧ temperature_value 150 ≤ 225) :=
  ⟨by decide, temperature_value_bounds.1 150 (by decide)⟩

theorem run_setup_append (m : Model) (l1 l2 : List (NS × Resource))
    (h : all_ok m l1 = true) :
    run_setup m (l1 ++ l2) = run_setup (run_setup m l1) l2 := by
  induction l1 generalizing m with
  | nil => rfl
  | cons s t ih =>
    unfold all_ok at h
    rw [Bool.and_eq_true] at h
    rw [List.cons_append]
    simp only [run_setup]
    rw [h.1]
    simp only [if_true]
    exact ih (insert_resource_after m s.1 s.2).1 h.2

/-- C8: the startup insertion sequence is fail-fast — if the sequence is
split as l1 ++ st :: l2 with every insert of l1 succeeding and the insert of
st failing (duplicate or shutdown observed), then running the whole sequence
stops at st: the final model is the state at the failure, so no resource of
l2 is inserted into any namespace. -/
theorem setup_fail_fast (s : Settings) (m : Model) (l1 : List (NS × Resource))
    (st : NS × Resource) (l2 : List (NS × Resource))
    (hsplit : setup_steps s = l1 ++ st :: l2)
    (hok : all_ok m l1 = true)
    (hfail : (insert_resource_after (run_setup m l1) st.1 st.2).2 = false) :
    run_setup m (setup_steps s) = (insert_resource_after (run_setup m l1) st.1 st.2).1 := by
  rw [hsplit, run_setup_append m l1 (st :: l2) hok]
  simp only [run_setup]
  rw [hfail]
  simp

/-- Witness for C8: starting with the shutdown flag already set, the very
first insertion of the example setup sequence fails, and the run stops
there. -/
theorem setup_fail_fast_witness :
    (insert_resource_after (run_setup { shutdown := true } []) NS.nodeRes
      (mk_resource (node_id example_settings) NType.node)).2 = false ∧
    run_setup { shutdown := true } (setup_steps example_settings) =
      (insert_resource_after (run_setup { shutdown := true } []) NS.nodeRes
        (mk_resource (node_id example_settings) NType.node)).1 :=
  ⟨rfl,
   setup_fail_fast example_settings { shutdown := true } []
     (NS.nodeRes, mk_resource (node_id example_settings) NType.node)
     ((setup_steps example_settings).tail) rfl rfl rfl⟩

/-- C9: when the shutdown flag is set at the pre-insert timed wait, the
insert helper returns false with the model unchanged — nothing is inserted
and the change condition is not signalled (the notification counter is
untouched) — and hence the setup thread inserts no further resources: running
any remaining sequence from such a state leaves the model exactly as it is. -/
theorem shutdown_blocks_insert (m : Model) (ns : NS) (r : Resource)
    (steps : List (NS × Resource)) (h : m.shutdown = true) :
    insert_resource_after m ns r = (m, false) ∧ run_setup m steps = m := by
  have hbase : ∀ ns0 r0, insert_resource_after m ns0 r0 = (m, false) := by
    intro ns0 r0
    unfold insert_resource_after
    rw [if_pos h]
  refine ⟨hbase ns r, ?_⟩
  cases steps with
  | nil => rfl
  | cons s t =>
    simp only [run_setup, hbase]
    simp

/-- Witness for C9 on a shut-down model and the example setup sequence. -/
theorem shutdown_blocks_insert_witness :
    ({ shutdown := true } : Model).shutdown = true ∧
    (insert_resource_after { shutdown := true } NS.nodeRes (mk_resource "x" NType.node) =
      ({ shutdown := true }, false) ∧
     run_setup { shutdown := true } (setup_steps example_settings) = { shutdown := true }) :=
  ⟨rfl,
   shutdown_blocks_insert { shutdown := true } NS.nodeRes (mk_resource "x" NType.node)
     (setup_steps example_settings) rfl⟩

